import Mathlib

/-!
Verification of the gpt-qualmaster-mcp server (src/server.py).

The Python source is shallowly embedded here:
* text is `String` (Lean chars = Unicode scalar values, matching Python
  code points for all data appearing in the tables);
* Python `str.lower` is modelled by `pyLowerChar`, which agrees with
  CPython on ASCII letters and on the only non-ASCII cased character
  occurring in the knowledge tables (the letter E with acute accent);
* Python `round` (round half to even) is modelled by `pyRound`; the
  scorer applies it to `k / n * C` for `n <= 13`, whose value and whose
  tie cases are exactly representable as binary floats, so the float
  computation in the source agrees with exact rational rounding;
* exceptions are modelled with `Except String`.
-/

/-- One character of Python `str.lower`: ASCII case folding, plus the one
non-ASCII cased character present in the knowledge tables. -/
def pyLowerChar (c : Char) : Char :=
  if c = 'É' then 'é' else c.toLower

/-- `str.lower` on a whole string. -/
def pyLowerStr (s : String) : String :=
  ⟨s.data.map pyLowerChar⟩

/-- Is `needle` a prefix of `hay`? (helper for substring containment). -/
def listStartsWith : List Char → List Char → Bool
  | [], _ => true
  | _ :: _, [] => false
  | a :: as, b :: bs => a == b && listStartsWith as bs

/-- Is `needle` a contiguous sublist of `hay`? -/
def listInfix (needle : List Char) : List Char → Bool
  | [] => listStartsWith needle []
  | c :: rest => listStartsWith needle (c :: rest) || listInfix needle rest

/-- Python `needle in hay` on strings: literal substring containment. -/
def substrB (needle hay : String) : Bool :=
  listInfix needle.data hay.data

/-- Characters removed by the regex substitution in `normalize_text`
(src/server.py:834): whitespace, underscore, hyphen. -/
def stripChar (c : Char) : Bool :=
  c == ' ' || c == '\t' || c == '\n' || c == '\r' || c == '\x0b' ||
    c == '\x0c' || c == '_' || c == '-'

/-- The fixed synonym substitution of `normalize_text`
(src/server.py:835): every occurrence of the two-character Korean term
검증 is replaced by 검토, left to right, as Python `str.replace` does. -/
def substSynonym : List Char → List Char
  | '검' :: '증' :: rest => '검' :: '토' :: substSynonym rest
  | c :: rest => c :: substSynonym rest
  | [] => []

/-- `normalize_text` (src/server.py:830-836): lower-case, drop
whitespace/underscores/hyphens, substitute 검증 by 검토. -/
def normalize_text (s : String) : String :=
  ⟨substSynonym ((s.data.map pyLowerChar).filter (fun c => !stripChar c))⟩

/-- Python `round (num / den)` for natural `num den`, i.e. rounding half
to even of the exact rational `num / den`. -/
def pyRound (num den : Nat) : Nat :=
  if 2 * (num % den) < den then num / den
  else if den < 2 * (num % den) then num / den + 1
  else if num / den % 2 == 0 then num / den else num / den + 1

/-- A single quality strategy of a Lincoln & Guba criterion
(src/server.py:845-940): display names and matching keywords. -/
structure LGStrategy where
  name : String
  korean : String
  keywords : List String
deriving DecidableEq

/-- A Lincoln & Guba criterion: key, Korean label, and its strategies. -/
structure LGCriterion where
  criterion : String
  korean : String
  strategies : List LGStrategy
deriving DecidableEq

/-- The `criteria` table of `assess_lincoln_guba`
(src/server.py:845-940), transcribed verbatim. -/
def lg_criteria : List LGCriterion := [
  { criterion := "credibility", korean := "신빙성 (Credibility)",
    strategies := [
      { name := "prolonged_engagement", korean := "장기적 관여",
        keywords := ["장기", "오랜기간", "prolonged", "7일", "14일", "집중적관여", "지속적"] },
      { name := "triangulation", korean := "삼각화/삼각검증",
        keywords := ["삼각화", "삼각검증", "triangulation", "다중자료", "3중", "인터뷰+저널", "다중출처"] },
      { name := "peer_debriefing", korean := "동료 검토",
        keywords := ["동료검토", "동료검증", "peer", "debriefing", "동료연구자"] },
      { name := "member_checking", korean := "참여자 확인",
        keywords := ["참여자확인", "membercheck", "memberchecking", "참여자검토", "2단계확인"] },
      { name := "negative_case", korean := "부정적 사례 분석",
        keywords := ["부정적사례", "negativecase", "반증", "방해경험", "부정사례"] }
    ] },
  { criterion := "transferability", korean := "전이가능성 (Transferability)",
    strategies := [
      { name := "thick_description", korean := "두꺼운 기술",
        keywords := ["두꺼운기술", "thickdescription", "상세기술", "풍부한기술"] },
      { name := "purposeful_sampling", korean := "목적적 표본추출",
        keywords := ["목적적", "purposeful", "의도적표집", "목적표집", "목적적표본", "목적표본"] },
      { name := "context_description", korean := "맥락 기술",
        keywords := ["맥락", "context", "배경", "상황기술", "맥락상세", "맥락체크리스트"] }
    ] },
  { criterion := "dependability", korean := "의존가능성 (Dependability)",
    strategies := [
      { name := "audit_trail", korean := "감사 추적",
        keywords := ["감사추적", "audittrail", "연구일지", "감사로그", "추적로그"] },
      { name := "code_recode", korean := "코드-재코드",
        keywords := ["재코드", "recode", "반복코딩", "코드재코드", "일치율", "코딩일치"] },
      { name := "peer_examination", korean := "동료 검증",
        keywords := ["동료검증", "동료검토", "peerexamination", "동료심사"] }
    ] },
  { criterion := "confirmability", korean := "확인가능성 (Confirmability)",
    strategies := [
      { name := "reflexivity", korean := "반성성/성찰",
        keywords := ["반성", "reflexiv", "성찰", "반성적저널", "위치성", "저널링"] },
      { name := "audit_trail", korean := "감사 추적",
        keywords := ["감사추적", "audittrail", "감사로그"] },
      { name := "triangulation", korean := "삼각화/삼각검증",
        keywords := ["삼각화", "삼각검증", "triangulation", "3중"] }
    ] }
]

/-- The matching test of `assess_lincoln_guba` for one strategy
(src/server.py:947-958): `found_in_desc or found_in_strategies`, where
`found_in_desc` checks each keyword against the normalized description
and, un-normalized but lower-cased, against the raw description, and
`found_in_strategies` checks, for each normalized supplied strategy
string `s` and each keyword `k`, `normalize_text(k) in s or
s in normalize_text(k)`. -/
def lg_strategy_matched (description : String) (strategies : List String)
    (st : LGStrategy) : Bool :=
  let lower_desc := pyLowerStr description
  let normalized_desc := normalize_text description
  let normalized_strategies := strategies.map normalize_text
  (st.keywords.any fun k =>
    substrB (normalize_text k) normalized_desc || substrB (pyLowerStr k) lower_desc)
  || (normalized_strategies.any fun s =>
    st.keywords.any fun k =>
      substrB (normalize_text k) s || substrB s (normalize_text k))

/-- One row of the per-criterion result list built by the scorers
(src/server.py:967-975 and 1074-1082). -/
structure Assessment where
  criterion : String
  korean : String
  score : Nat
  max_score : Nat
  strategies_applied : List String
  missing_strategies : List String
  recommendations : List String
deriving DecidableEq

/-- `assess_lincoln_guba` (src/server.py:839-977).  The `applied` and
`missing` lists are accumulated in loop order, which is the filter of
the strategy list by the match test; `score = round(len(applied) /
len(strategies) * 25)` (the score fractions have denominators 5 and 3,
so the float round in the source equals exact rational rounding). -/
def assess_lincoln_guba (description : String) (strategies : List String) :
    List Assessment :=
  lg_criteria.map fun c =>
    let applied := (c.strategies.filter
      (fun st => lg_strategy_matched description strategies st)).map (·.korean)
    let missing := (c.strategies.filter
      (fun st => !lg_strategy_matched description strategies st)).map (·.korean)
    { criterion := c.criterion
      korean := c.korean
      score := pyRound (25 * applied.length) c.strategies.length
      max_score := 25
      strategies_applied := applied
      missing_strategies := missing
      recommendations := missing.map (fun m => m ++ " 전략을 추가로 적용하세요") }

/-- A Tracy criterion (src/server.py:986-1051): key, Korean label, and a
flat list of indicator words. -/
structure TracyCriterion where
  criterion : String
  korean : String
  indicators : List String
deriving DecidableEq

/-- The `criteria` table of `assess_tracy` (src/server.py:986-1051),
transcribed verbatim. -/
def tracy_criteria : List TracyCriterion := [
  { criterion := "worthy_topic", korean := "가치있는 주제",
    indicators := ["중요", "시의적절", "필요", "기여", "문제", "의미", "가치",
      "새로운현상", "AI", "리더", "의사결정", "탐구", "연구목적"] },
  { criterion := "rich_rigor", korean := "풍부한 엄격성",
    indicators := ["충분한", "다양한", "적절한", "체계적", "면밀한", "엄격",
      "IPA", "6단계", "다중사례", "심층", "분석절차", "브라케팅"] },
  { criterion := "sincerity", korean := "성실성",
    indicators := ["반성", "성찰", "한계", "투명", "정직", "위치성",
      "반성적저널", "저널링", "솔직"] },
  { criterion := "credibility", korean := "신빙성",
    indicators := ["삼각", "참여자확인", "두꺼운기술", "구체적", "검증",
      "membercheck", "삼각검증", "동료검토"] },
  { criterion := "resonance", korean := "공명",
    indicators := ["전이", "일반화", "독자", "영향", "감동", "공감",
      "경험", "의미", "본질", "통찰"] },
  { criterion := "significant_contribution", korean := "의미있는 기여",
    indicators := ["기여", "확장", "새로운", "발전", "함의", "이론적",
      "실무적", "통찰", "제안"] },
  { criterion := "ethics", korean := "윤리성",
    indicators := ["윤리", "동의", "익명", "보호", "IRB", "승인",
      "동의서", "철회", "민감정보", "익명화"] },
  { criterion := "meaningful_coherence", korean := "의미있는 일관성",
    indicators := ["일관", "연결", "목적", "방법론", "통합", "적합",
      "IPA", "현상학", "연구질문", "분석"] }
]

/-- The matching test of `assess_tracy` for one indicator
(src/server.py:1056-1061): normalized indicator in normalized
description, or lower-cased indicator in lower-cased description, or
normalized indicator in some normalized supplied strategy string. -/
def tracy_indicator_matched (description : String) (strategies : List String)
    (ind : String) : Bool :=
  substrB (normalize_text ind) (normalize_text description)
  || substrB (pyLowerStr ind) (pyLowerStr description)
  || (strategies.map normalize_text).any (fun s => substrB (normalize_text ind) s)

/-- `assess_tracy` (src/server.py:980-1084).  `score =
round(len(found) / len(indicators) * 13)`; the indicator counts are
13, 12, 9, 8, 10, 9, 10, 10 per criterion, for which the float round in
the source equals exact rational round-half-to-even (all tie cases are
exactly representable). -/
def assess_tracy (description : String) (strategies : List String) :
    List Assessment :=
  tracy_criteria.map fun c =>
    let found := c.indicators.filter
      (fun i => tracy_indicator_matched description strategies i)
    let missing := c.indicators.filter
      (fun i => !tracy_indicator_matched description strategies i)
    let score := pyRound (13 * found.length) c.indicators.length
    { criterion := c.criterion
      korean := c.korean
      score := score
      max_score := 13
      strategies_applied := found
      missing_strategies := missing.take 3
      recommendations :=
        if score < 10 ∧ found.length < 3 then [c.korean ++ " 관련 내용을 보강하세요"] else [] }

/-- `get_grade` (src/server.py:1087-1098); the percentage is modelled as
an exact rational. -/
def get_grade (percentage : ℚ) : String :=
  if 90 ≤ percentage then "A (우수)"
  else if 80 ≤ percentage then "B (양호)"
  else if 70 ≤ percentage then "C (보통)"
  else if 60 ≤ percentage then "D (미흡)"
  else "F (개선 필요)"

/-- `get_priority_actions` (src/server.py:1101-1107): criteria scoring
below half of their maximum, with their first recommendation or a
generic fallback, truncated to three. -/
def get_priority_actions (assessments : List Assessment) : List String :=
  ((assessments.filter fun a =>
      (a.score : ℚ) / (a.max_score : ℚ) < 1 / 2).map fun a =>
    a.korean ++ " 개선: " ++ a.recommendations.headD "전략 추가 필요").take 3

/-- The static `quality_enhancement_guide` block appended verbatim to
every report of `handle_assess_quality` (src/server.py:1164-1185). -/
def quality_enhancement_guide : List (String × List String) := [
  ("immediate_actions",
    ["연구 설계 단계에서 품질 전략을 계획하세요",
     "연구 일지를 꾸준히 작성하세요",
     "동료 연구자와 정기적으로 토론하세요"]),
  ("during_data_collection",
    ["참여자와 충분한 라포를 형성하세요",
     "면담 후 즉시 메모를 작성하세요",
     "다양한 자료원을 활용하세요"]),
  ("during_analysis",
    ["코딩의 일관성을 검토하세요",
     "참여자 확인(member checking)을 실시하세요",
     "부정적 사례를 적극적으로 찾으세요"]),
  ("writing_phase",
    ["두꺼운 기술로 맥락을 풍부하게 제시하세요",
     "연구자의 위치성을 명시하세요",
     "한계를 솔직하게 논의하세요"])
]

/-- The structured report built by `handle_assess_quality`
(src/server.py:1137-1186).  The numeric fields are kept as numbers;
the source renders them into strings and serializes the record to JSON,
which is pure formatting and is elided here. -/
structure QualityReport where
  criteria_used : String
  description_length : Nat
  strategies_reported : Nat
  total_score : Nat
  max_score_total : Nat
  overall_percentage : ℚ
  grade : String
  detailed_assessment : List Assessment
  strengths : List String
  weaknesses : List String
  priority_actions : List String
  enhancement_guide : List (String × List String)
deriving DecidableEq

/-- Result of `handle_assess_quality`: either the early-return error
text for an empty description, or the report. -/
inductive AssessOutput where
  | error (msg : String)
  | report (r : QualityReport)
deriving DecidableEq

/-- `handle_assess_quality` (src/server.py:1110-1190).  `criteria`
defaults to `"all"` at the call site via `args.get`; the guard at
line 1130 makes the percentage 0 when no criteria were selected. -/
def handle_assess_quality (research_description : String)
    (strategies_used : List String) (criteria : String) : AssessOutput :=
  if research_description = "" then
    .error "연구 설명(research_description)을 입력해주세요."
  else
    let assessments :=
      (if criteria = "lincoln_guba" ∨ criteria = "all" then
        assess_lincoln_guba research_description strategies_used else [])
      ++ (if criteria = "tracy" ∨ criteria = "all" then
        assess_tracy research_description strategies_used else [])
    let total_score : Nat := (assessments.map (·.score)).sum
    let max_score : Nat := (assessments.map (·.max_score)).sum
    let overall_percentage : ℚ :=
      if 0 < max_score then (total_score : ℚ) / (max_score : ℚ) * 100 else 0
    .report
      { criteria_used := criteria
        description_length := research_description.length
        strategies_reported := strategies_used.length
        total_score := total_score
        max_score_total := max_score
        overall_percentage := overall_percentage
        grade := get_grade overall_percentage
        detailed_assessment := assessments
        strengths := (assessments.filter fun a =>
          (7 : ℚ) / 10 ≤ (a.score : ℚ) / (a.max_score : ℚ)).map (·.korean)
        weaknesses := (assessments.filter fun a =>
          (a.score : ℚ) / (a.max_score : ℚ) < 1 / 2).map (·.korean)
        priority_actions := get_priority_actions assessments
        enhancement_guide := quality_enhancement_guide }

/-- The matching condition exactly as the claim states it: a keyword
occurs (normalized) in the normalized description, or (normalized) in
the normalized form of some supplied strategy string, or (case-folded)
in the case-folded raw description — and under no other condition. -/
def lg_strategy_matched_spec (description : String) (strategies : List String)
    (st : LGStrategy) : Bool :=
  st.keywords.any fun k =>
    substrB (normalize_text k) (normalize_text description)
    || strategies.any (fun s => substrB (normalize_text k) (normalize_text s))
    || substrB (pyLowerStr k) (pyLowerStr description)

/-- The amended matching condition: as claimed, plus the remaining
disjunct actually present in the source (src/server.py:956), namely
that the normalized supplied strategy string occurs as a substring of
the normalized keyword. -/
def lg_strategy_matched_amended (description : String) (strategies : List String)
    (st : LGStrategy) : Bool :=
  st.keywords.any fun k =>
    substrB (normalize_text k) (normalize_text description)
    || strategies.any (fun s => substrB (normalize_text k) (normalize_text s)
        || substrB (normalize_text s) (normalize_text k))
    || substrB (pyLowerStr k) (pyLowerStr description)

/-- A Python value as occurring in the knowledge tables: strings, lists
and (insertion-ordered) string-keyed dicts. -/
inductive PyVal where
  | s (v : String)
  | l (v : List PyVal)
  | d (v : List (String × PyVal))

/-- A list of Python strings. -/
def PyVal.strs (xs : List String) : PyVal :=
  .l (xs.map .s)

mutual

/-- `str` / `repr` of a table value, exactly as CPython renders these
shapes: dict entries as quoted key, colon, space, value, joined with
comma-space inside braces; list elements joined with comma-space inside
brackets; strings in single quotes (no table string contains a quote or
a backslash, so no escaping arises). -/
def pyRepr : PyVal → String
  | .s v => "\x27" ++ v ++ "\x27"
  | .l vs => "[" ++ pyReprList vs ++ "]"
  | .d kvs => "\x7b" ++ pyReprDict kvs ++ "\x7d"

def pyReprList : List PyVal → String
  | [] => ""
  | [v] => pyRepr v
  | v :: vs => pyRepr v ++ ", " ++ pyReprList vs

def pyReprDict : List (String × PyVal) → String
  | [] => ""
  | [kv] => "\x27" ++ kv.1 ++ "\x27: " ++ pyRepr kv.2
  | kv :: kvs => "\x27" ++ kv.1 ++ "\x27: " ++ pyRepr kv.2 ++ ", " ++ pyReprDict kvs

end

/-- Dict lookup, `none` when the key is absent. -/
def PyVal.get? : PyVal → String → Option PyVal
  | .d kvs, k => (kvs.find? (fun kv => kv.1 == k)).map (·.2)
  | _, _ => none

/-- The string content of a value (these tables only apply it to
string values). -/
def PyVal.asStr : PyVal → String
  | .s v => v
  | _ => ""

/-- `v[k]` for a string field that is present in every entry of the
fixed table it is applied to (so the Python subscript cannot fail). -/
def getStrD (v : PyVal) (k : String) : String :=
  match v.get? k with
  | some (.s t) => t
  | _ => ""

/-- `v[k]` for a list-of-strings field present in the fixed tables. -/
def getStrsD (v : PyVal) (k : String) : List String :=
  match v.get? k with
  | some (.l vs) => vs.map PyVal.asStr
  | _ => []

/-- `v.get(k, {})` / `v[k]` for a dict-valued field. -/
def getDictD (v : PyVal) (k : String) : List (String × PyVal) :=
  match v.get? k with
  | some (.d kvs) => kvs
  | _ => []

/-- Python `k in v` for a dict. -/
def hasKey (v : PyVal) (k : String) : Bool :=
  (v.get? k).isSome

/-- `v[k]` for a string field that may be absent: Python raises
`KeyError(k)` when it is; the transport turns the exception into its
message, modelled as the `.error` payload. -/
def pyGetStr (v : PyVal) (k : String) : Except String String :=
  match v.get? k with
  | some (.s t) => .ok t
  | some _ => .error ("TypeError: " ++ k)
  | none => .error ("KeyError: \x27" ++ k ++ "\x27")

/-- `PARADIGMS` (src/server.py:166-203), transcribed verbatim. -/
def PARADIGMS : List (String × PyVal) := [
  ("positivism", .d [
    ("name", .s "실증주의 (Positivism)"),
    ("ontology", .s "단일한 객관적 실재 존재"),
    ("epistemology", .s "연구자와 대상의 분리, 객관적 관찰 가능"),
    ("methodology", .s "실험, 검증, 가설 검증"),
    ("quality_criteria", PyVal.strs ["내적타당도", "외적타당도", "신뢰도", "객관성"]),
    ("key_scholars", PyVal.strs ["Auguste Comte", "Émile Durkheim"]),
    ("limitations", .s "인간 경험의 복잡성과 맥락 무시 가능성")]),
  ("postpositivism", .d [
    ("name", .s "후기실증주의 (Post-positivism)"),
    ("ontology", .s "실재 존재하나 완전히 파악 불가 (Critical Realism)"),
    ("epistemology", .s "객관성은 목표이나 편향 인정, 반증주의"),
    ("methodology", .s "수정된 실험, 삼각검증, 준실험설계"),
    ("quality_criteria", PyVal.strs ["내적타당도", "외적타당도", "신뢰도", "객관성 (수정됨)"]),
    ("key_scholars", PyVal.strs ["Karl Popper", "Thomas Kuhn"]),
    ("limitations", .s "여전히 객관주의적 가정 유지")]),
  ("critical_theory", .d [
    ("name", .s "비판이론 (Critical Theory)"),
    ("ontology", .s "역사적으로 구성된 실재, 권력관계에 의해 형성"),
    ("epistemology", .s "연구자-대상 상호작용, 가치 개입 인정"),
    ("methodology", .s "이데올로기 비판, 참여적 행동연구, 담론분석"),
    ("quality_criteria", PyVal.strs ["역사성", "침식성", "촉매적 타당성", "해방적 타당성"]),
    ("key_scholars", PyVal.strs ["Theodor Adorno", "Jürgen Habermas", "Paulo Freire"]),
    ("limitations", .s "연구자의 정치적 입장이 연구에 과도하게 개입 가능")]),
  ("constructivism", .d [
    ("name", .s "구성주의 (Constructivism)"),
    ("ontology", .s "다중 실재, 사회적으로 구성됨"),
    ("epistemology", .s "연구자-참여자 공동 구성, 해석학적 이해"),
    ("methodology", .s "해석학, 근거이론, 현상학, 내러티브"),
    ("quality_criteria", PyVal.strs ["신뢰성", "전이가능성", "의존성", "확증성"]),
    ("key_scholars", PyVal.strs ["Egon Guba", "Yvonna Lincoln", "John Creswell"]),
    ("limitations", .s "상대주의적 입장으로 인한 일반화 어려움")])
]

/-- `TRADITIONS` (src/server.py:205-271), transcribed verbatim. -/
def TRADITIONS : List (String × PyVal) := [
  ("phenomenology", .d [
    ("name", .s "현상학 (Phenomenology)"),
    ("focus", .s "체험의 본질 (essence of lived experience)"),
    ("data_collection", .s "심층 인터뷰, 참여 관찰"),
    ("analysis", .s "현상학적 환원, 본질 직관, 의미 단위 분석"),
    ("sample_size", .s "3-10명"),
    ("key_scholars", PyVal.strs ["Husserl", "Heidegger", "Merleau-Ponty", "van Manen"]),
    ("variants", .d [
      ("husserlian", .s "기술적 현상학 - 본질 기술에 집중"),
      ("heideggerian", .s "해석학적 현상학 - 존재론적 해석"),
      ("ipa", .s "해석학적 현상학적 분석 - 참여자의 의미 만들기")])]),
  ("grounded_theory", .d [
    ("name", .s "근거이론 (Grounded Theory)"),
    ("focus", .s "현상을 설명하는 이론 개발"),
    ("data_collection", .s "인터뷰, 관찰, 문서 (이론적 표집)"),
    ("analysis", .s "개방코딩→축코딩→선택코딩, 지속적 비교"),
    ("sample_size", .s "20-30명 (포화 시점까지)"),
    ("key_scholars", PyVal.strs ["Glaser", "Strauss", "Corbin", "Charmaz"]),
    ("variants", .d [
      ("glaserian", .s "원전 GT - 출현, 연구자 중립성 강조"),
      ("straussian", .s "체계적 GT - 분석 절차 명확화"),
      ("charmaz", .s "구성주의 GT - 연구자의 해석적 역할 인정")])]),
  ("ethnography", .d [
    ("name", .s "문화기술지 (Ethnography)"),
    ("focus", .s "문화 공유 집단의 패턴"),
    ("data_collection", .s "장기간 현장연구, 참여관찰, 인터뷰"),
    ("analysis", .s "기술, 분석, 해석"),
    ("sample_size", .s "문화 공유 집단 전체"),
    ("key_scholars", PyVal.strs ["Clifford Geertz", "Bronisław Malinowski"]),
    ("variants", .d [
      ("classical", .s "전통적 민족지 - 외부자 관점"),
      ("autoethnography", .s "자기 문화기술지 - 연구자 경험 중심"),
      ("critical", .s "비판적 민족지 - 권력관계 분석")])]),
  ("narrative", .d [
    ("name", .s "내러티브 탐구 (Narrative Inquiry)"),
    ("focus", .s "개인의 이야기, 생애사"),
    ("data_collection", .s "생애사 인터뷰, 저널, 문서"),
    ("analysis", .s "줄거리 분석, 주제 분석, 구조 분석"),
    ("sample_size", .s "1-5명"),
    ("key_scholars", PyVal.strs ["D. Jean Clandinin", "F. Michael Connelly"]),
    ("variants", .d [
      ("biographical", .s "전기적 접근"),
      ("life_history", .s "생애사 연구"),
      ("oral_history", .s "구술사")])]),
  ("case_study", .d [
    ("name", .s "사례연구 (Case Study)"),
    ("focus", .s "사례의 심층적 이해 (경계 지어진 체계)"),
    ("data_collection", .s "인터뷰, 관찰, 문서, 아카이브"),
    ("analysis", .s "사례 내 분석, 교차 사례 분석"),
    ("sample_size", .s "1-5 사례"),
    ("key_scholars", PyVal.strs ["Robert Yin", "Robert Stake", "Kathleen Eisenhardt"]),
    ("variants", .d [
      ("intrinsic", .s "본질적 - 사례 자체가 목적"),
      ("instrumental", .s "도구적 - 사례를 통한 이론 발전"),
      ("collective", .s "집합적 - 다중 사례 비교")])])
]

/-- The `open_coding` entry of `CODING_TYPES` (src/server.py:274-279). -/
def coding_open_coding : PyVal := .d [
  ("name", .s "개방코딩 (Open Coding)"),
  ("description", .s "데이터를 개념으로 분해하고 명명하는 과정"),
  ("process", PyVal.strs ["라인별/문장별/단락별 분석", "개념 명명", "범주화"]),
  ("output", .s "개념 목록, 초기 범주")]

/-- The `axial_coding` entry of `CODING_TYPES` (src/server.py:280-292). -/
def coding_axial_coding : PyVal := .d [
  ("name", .s "축코딩 (Axial Coding)"),
  ("description", .s "범주 간 관계 구조화"),
  ("paradigm_model", .d [
    ("causal_conditions", .s "인과적 조건"),
    ("phenomenon", .s "현상"),
    ("context", .s "맥락적 조건"),
    ("intervening", .s "중재적 조건"),
    ("strategies", .s "작용/상호작용 전략"),
    ("consequences", .s "결과")]),
  ("output", .s "패러다임 모형, 범주 관계도")]

/-- The `selective_coding` entry of `CODING_TYPES` (src/server.py:293-298). -/
def coding_selective_coding : PyVal := .d [
  ("name", .s "선택코딩 (Selective Coding)"),
  ("description", .s "핵심범주 선정 및 이론 통합"),
  ("process", PyVal.strs ["스토리라인 작성", "핵심범주 확인", "이론적 틀 완성"]),
  ("output", .s "이론적 모형, 명제")]

/-- The `invivo_coding` entry of `CODING_TYPES` (src/server.py:299-304). -/
def coding_invivo_coding : PyVal := .d [
  ("name", .s "인비보 코딩 (In Vivo Coding)"),
  ("description", .s "참여자의 실제 언어를 코드로 사용"),
  ("purpose", .s "참여자 관점 보존"),
  ("example", .s "\"그냥 버티는 거죠\" → 버티기")]

/-- The `thematic_analysis` entry of `CODING_TYPES`
(src/server.py:305-316).  Note: it has no `description` field, although
the search and coding-guide renderers subscript it by "description". -/
def coding_thematic_analysis : PyVal := .d [
  ("name", .s "주제분석 (Thematic Analysis)"),
  ("process", PyVal.strs [
    "1. 데이터 친숙해지기",
    "2. 초기 코드 생성",
    "3. 주제 탐색",
    "4. 주제 검토",
    "5. 주제 정의 및 명명",
    "6. 보고서 작성"]),
  ("key_scholars", PyVal.strs ["Braun & Clarke (2006)"])]

/-- `CODING_TYPES` (src/server.py:273-317). -/
def CODING_TYPES : List (String × PyVal) := [
  ("open_coding", coding_open_coding),
  ("axial_coding", coding_axial_coding),
  ("selective_coding", coding_selective_coding),
  ("invivo_coding", coding_invivo_coding),
  ("thematic_analysis", coding_thematic_analysis)
]

/-- `QUALITY_CRITERIA` (src/server.py:319-360), transcribed verbatim.
Its single top-level entry is never visited by `handle_search_knowledge`,
which has no loop for the `quality` category. -/
def QUALITY_CRITERIA : List (String × PyVal) := [
  ("trustworthiness", .d [
    ("credibility", .d [
      ("name", .s "신뢰성 (Credibility)"),
      ("quantitative_equivalent", .s "내적 타당도"),
      ("strategies", PyVal.strs [
        "장기간 참여 (Prolonged engagement)",
        "삼각검증 (Triangulation)",
        "동료 검토 (Peer debriefing)",
        "참여자 확인 (Member checking)",
        "부정사례 분석 (Negative case analysis)"])]),
    ("transferability", .d [
      ("name", .s "전이가능성 (Transferability)"),
      ("quantitative_equivalent", .s "외적 타당도"),
      ("strategies", PyVal.strs [
        "풍부한 기술 (Thick description)",
        "맥락 상세 기술",
        "참여자 특성 명시"])]),
    ("dependability", .d [
      ("name", .s "의존성 (Dependability)"),
      ("quantitative_equivalent", .s "신뢰도"),
      ("strategies", PyVal.strs [
        "감사 추적 (Audit trail)",
        "탐구 과정 문서화",
        "연구 일지 (Reflexive journal)"])]),
    ("confirmability", .d [
      ("name", .s "확증성 (Confirmability)"),
      ("quantitative_equivalent", .s "객관성"),
      ("strategies", PyVal.strs [
        "감사 추적",
        "삼각검증",
        "반성적 성찰 (Reflexivity)"])])])
]

/-- `JOURNALS` (src/server.py:362-392), transcribed verbatim. -/
def JOURNALS : List (String × PyVal) := [
  ("amr", .d [
    ("name", .s "Academy of Management Review"),
    ("focus", .s "이론 개발, 개념 논문"),
    ("style", .s "가설 없음, 명제 중심"),
    ("key_sections", PyVal.strs ["Introduction", "Theoretical Background", "Theory Development", "Discussion"]),
    ("common_rejections", PyVal.strs [
      "So What? - 기여가 명확하지 않음",
      "Old Wine - 기존 이론의 재포장",
      "Logic Gaps - 논리적 비약",
      "Construct Confusion - 개념 혼란"]),
    ("tips", PyVal.strs [
      "첫 문단에서 흥미로운 Puzzle 제시",
      "기존 이론의 한계를 명확히",
      "새로운 개념/메커니즘 제안",
      "경쟁 가설과의 비교",
      "경계조건 명시"])]),
  ("asq", .d [
    ("name", .s "Administrative Science Quarterly"),
    ("focus", .s "경험적 연구 + 강한 이론"),
    ("style", .s "정성/정량 모두 가능"),
    ("requirements", PyVal.strs [
      "새로운 이론적 통찰",
      "철저한 방법론",
      "풍부한 데이터"])])
]

/-- `REJECTION_PATTERNS` (src/server.py:394-422), transcribed verbatim. -/
def REJECTION_PATTERNS : List (String × PyVal) := [
  ("so_what", .d [
    ("name", .s "So What? 문제"),
    ("symptoms", PyVal.strs ["기여 불명확", "실무적 함의 부족", "이론적 중요성 설명 부족"]),
    ("solutions", PyVal.strs [
      "서론에서 연구 질문의 중요성 강조",
      "기존 이론/실무의 구체적 한계 제시",
      "연구 결과의 이론적/실무적 함의 명확화"])]),
  ("old_wine", .d [
    ("name", .s "Old Wine in New Bottles 문제"),
    ("symptoms", PyVal.strs ["기존 연구와 차별점 불명확", "새로운 통찰 부족"]),
    ("solutions", PyVal.strs [
      "기존 연구와의 명확한 차별점 제시",
      "새로운 맥락/조건에서의 적용",
      "기존 이론의 경계조건 탐색"])]),
  ("logic_gap", .d [
    ("name", .s "논리적 비약 문제"),
    ("symptoms", PyVal.strs ["추론 과정 불완전", "데이터-결론 연결 약함"]),
    ("solutions", PyVal.strs [
      "단계별 논리 전개",
      "대안 설명 고려",
      "추론의 근거 명시"])])
]

/-- The match test of `handle_search_knowledge` for the paradigms,
traditions and coding loops (src/server.py:660, 666, 672): lowered
query contained in the key, in the lower-cased `name` field, or in the
lower-cased `str()` rendering of the whole entry. -/
def entry_match_full (q : String) (key : String) (v : PyVal) : Bool :=
  substrB q key || substrB q (pyLowerStr (getStrD v "name"))
    || substrB q (pyLowerStr (pyRepr v))

/-- The match test of the journals and rejection loops
(src/server.py:678, 684): key or lower-cased `name` only — the full
rendered text is not searched for these categories. -/
def entry_match_name (q : String) (key : String) (v : PyVal) : Bool :=
  substrB q key || substrB q (pyLowerStr (getStrD v "name"))

/-- The string appended per matched paradigm (src/server.py:661). -/
def renderParadigm (p : PyVal) : String :=
  "**" ++ getStrD p "name" ++ "**\n- 존재론: " ++ getStrD p "ontology"
    ++ "\n- 인식론: " ++ getStrD p "epistemology"

/-- The string appended per matched tradition (src/server.py:667). -/
def renderTradition (t : PyVal) : String :=
  "**" ++ getStrD t "name" ++ "**\n- 초점: " ++ getStrD t "focus"
    ++ "\n- 분석: " ++ getStrD t "analysis"

/-- The string appended per matched coding entry (src/server.py:673):
subscripting by "description" raises `KeyError` when the field is missing, which
happens for the `thematic_analysis` entry. -/
def renderCoding (c : PyVal) : Except String String := do
  let n ← pyGetStr c "name"
  let d ← pyGetStr c "description"
  pure ("**" ++ n ++ "**\n- " ++ d)

/-- Total variant of `renderCoding`, used to state what the coding loop
produces on the entries whose fields are all present. -/
def renderCodingT (c : PyVal) : String :=
  "**" ++ getStrD c "name" ++ "**\n- " ++ getStrD c "description"

/-- The string appended per matched journal (src/server.py:679). -/
def renderJournal (j : PyVal) : String :=
  "**" ++ getStrD j "name" ++ "**\n- 초점: " ++ getStrD j "focus"

/-- The string appended per matched rejection pattern
(src/server.py:685). -/
def renderRejection (r : PyVal) : String :=
  "**" ++ getStrD r "name" ++ "**\n- 증상: "
    ++ String.intercalate ", " (getStrsD r "symptoms")

/-- One `for key, v in TABLE.items():` loop of `handle_search_knowledge`
appending a rendered string per matching entry. -/
def loopTable (m : String → PyVal → Bool) (render : PyVal → String) :
    List (String × PyVal) → List String → List String
  | [], acc => acc
  | kv :: rest, acc =>
    if m kv.1 kv.2 then loopTable m render rest (acc ++ [render kv.2])
    else loopTable m render rest acc

/-- The coding loop, whose renderer can raise: a raised exception aborts
the whole handler. -/
def loopTableE (m : String → PyVal → Bool) (render : PyVal → Except String String) :
    List (String × PyVal) → List String → Except String (List String)
  | [], acc => .ok acc
  | kv :: rest, acc =>
    if m kv.1 kv.2 then
      match render kv.2 with
      | .error e => .error e
      | .ok r => loopTableE m render rest (acc ++ [r])
    else loopTableE m render rest acc

/-- Python truthiness of the optional `category` argument: absent or
empty string means no filter. -/
def catFalsy : Option String → Bool
  | none => true
  | some s => s == ""

/-- `if not category or category == c:` (src/server.py:658 etc.). -/
def selCat (cat : Option String) (c : String) : Bool :=
  catFalsy cat || cat == some c

/-- The `results` list built by the five search loops of
`handle_search_knowledge` (src/server.py:654-685): paradigms,
traditions, coding, journals, rejection, in that order; no loop exists
for the `quality` category.  An exception in the coding loop aborts the
handler before the journal and rejection loops run. -/
def searchResults (query : String) (category : Option String) :
    Except String (List String) :=
  let q := pyLowerStr query
  let r1 := if selCat category "paradigms" then
    loopTable (entry_match_full q) renderParadigm PARADIGMS [] else []
  let r2 := if selCat category "traditions" then
    loopTable (entry_match_full q) renderTradition TRADITIONS r1 else r1
  match (if selCat category "coding" then
      loopTableE (entry_match_full q) renderCoding CODING_TYPES r2 else .ok r2) with
  | .error e => .error e
  | .ok r3 =>
    let r4 := if selCat category "journals" then
      loopTable (entry_match_name q) renderJournal JOURNALS r3 else r3
    let r5 := if selCat category "rejection" then
      loopTable (entry_match_name q) renderRejection REJECTION_PATTERNS r4 else r4
    .ok r5

/-- Python `TABLE[key]` after a `key in TABLE` guard, on the embedded
association lists. -/
def dictLookup (k : String) (tbl : List (String × PyVal)) : Option PyVal :=
  (tbl.find? (fun kv => kv.1 == k)).map (·.2)

/-- `handle_get_paradigm` (src/server.py:707-733). -/
def handle_get_paradigm (paradigm : String) : String :=
  match dictLookup paradigm PARADIGMS with
  | none => "알 수 없는 패러다임: " ++ paradigm ++ "\n사용 가능: "
      ++ String.intercalate ", " (PARADIGMS.map (·.1))
  | some p =>
    "## " ++ getStrD p "name"
    ++ "\n\n### 존재론 (Ontology)\n" ++ getStrD p "ontology"
    ++ "\n\n### 인식론 (Epistemology)\n" ++ getStrD p "epistemology"
    ++ "\n\n### 방법론 (Methodology)\n" ++ getStrD p "methodology"
    ++ "\n\n### 품질 기준\n" ++ String.intercalate ", " (getStrsD p "quality_criteria")
    ++ "\n\n### 주요 학자\n" ++ String.intercalate ", " (getStrsD p "key_scholars")
    ++ "\n\n### 한계\n" ++ getStrD p "limitations" ++ "\n"

/-- `handle_get_tradition` (src/server.py:736-764). -/
def handle_get_tradition (tradition : String) : String :=
  match dictLookup tradition TRADITIONS with
  | none => "알 수 없는 전통: " ++ tradition ++ "\n사용 가능: "
      ++ String.intercalate ", " (TRADITIONS.map (·.1))
  | some t =>
    "## " ++ getStrD t "name"
    ++ "\n\n### 연구 초점\n" ++ getStrD t "focus"
    ++ "\n\n### 데이터 수집\n" ++ getStrD t "data_collection"
    ++ "\n\n### 분석 방법\n" ++ getStrD t "analysis"
    ++ "\n\n### 표본 크기\n" ++ getStrD t "sample_size"
    ++ "\n\n### 주요 학자\n" ++ String.intercalate ", " (getStrsD t "key_scholars")
    ++ "\n\n### 변형 (Variants)\n"
    ++ String.intercalate "\n" ((getDictD t "variants").map
        (fun kv => "- **" ++ kv.1 ++ "**: " ++ kv.2.asStr))
    ++ "\n"

/-- `handle_get_coding_guide` (src/server.py:807-827); the subscript
the subscript by "description" raises for the `thematic_analysis` entry. -/
def handle_get_coding_guide (coding_type : String) : Except String String :=
  match dictLookup coding_type CODING_TYPES with
  | none => .ok ("알 수 없는 코딩 유형: " ++ coding_type ++ "\n사용 가능: "
      ++ String.intercalate ", " (CODING_TYPES.map (·.1)))
  | some c => do
    let n ← pyGetStr c "name"
    let desc ← pyGetStr c "description"
    let o1 := "## " ++ n ++ "\n\n" ++ desc ++ "\n\n"
    let o2 := if hasKey c "process" then
      o1 ++ "### 절차\n" ++ String.intercalate "\n"
        ((getStrsD c "process").map (fun p => "- " ++ p)) ++ "\n\n"
      else o1
    let o3 := if hasKey c "output" then
      o2 ++ "### 결과물\n" ++ getStrD c "output" ++ "\n\n" else o2
    let o4 := if hasKey c "paradigm_model" then
      o3 ++ "### 패러다임 모형\n" ++ String.join
        ((getDictD c "paradigm_model").map
          (fun kv => "- **" ++ kv.1 ++ "**: " ++ kv.2.asStr ++ "\n"))
      else o3
    pure o4

/-- `handle_get_journal_guide` (src/server.py:1193-1218). -/
def handle_get_journal_guide (journal : String) : String :=
  match dictLookup journal JOURNALS with
  | none => "알 수 없는 저널: " ++ journal ++ "\n사용 가능: "
      ++ String.intercalate ", " (JOURNALS.map (·.1))
  | some j =>
    "## " ++ getStrD j "name" ++ "\n\n"
    ++ "**초점**: " ++ getStrD j "focus" ++ "\n\n"
    ++ "**스타일**: " ++ getStrD j "style" ++ "\n\n"
    ++ (if hasKey j "key_sections" then
        "### 주요 섹션\n" ++ String.intercalate ", " (getStrsD j "key_sections") ++ "\n\n"
      else "")
    ++ (if hasKey j "common_rejections" then
        "### 흔한 리젝션 사유\n" ++ String.join
          ((getStrsD j "common_rejections").map (fun r => "- " ++ r ++ "\n")) ++ "\n"
      else "")
    ++ (if hasKey j "tips" then
        "### 투고 팁\n" ++ String.join
          ((getStrsD j "tips").map (fun t => "- " ++ t ++ "\n"))
      else "")

/-- `handle_diagnose_rejection` (src/server.py:1221-1232). -/
def handle_diagnose_rejection (rejection_type : String) : String :=
  match dictLookup rejection_type REJECTION_PATTERNS with
  | none => "알 수 없는 리젝션 유형: " ++ rejection_type ++ "\n사용 가능: "
      ++ String.intercalate ", " (REJECTION_PATTERNS.map (·.1))
  | some r =>
    "## " ++ getStrD r "name" ++ "\n\n"
    ++ "### 증상\n" ++ String.intercalate "\n"
        ((getStrsD r "symptoms").map (fun x => "- " ++ x)) ++ "\n\n"
    ++ "### 해결 전략\n" ++ String.intercalate "\n"
        ((getStrsD r "solutions").map (fun x => "- " ++ x))

/-- One hit of the vector search (src/server.py:86-95). -/
structure SearchHit where
  content : String
  title : String
  source : String
  category : String
  rank : Nat
deriving DecidableEq

/-- Model of `QualMasterVectorStore` (src/server.py:46-98).  The
embedding model and index are external collaborators;
`encoderAvailable` models the `if not self.encoder: return []` early
exit, and `queryOutcome` the outcome of the encode + query + formatting
pipeline, an exception during any of it being `.error`. -/
structure VectorStoreModel where
  encoderAvailable : Bool
  queryOutcome : Except String (List SearchHit)

/-- `QualMasterVectorStore.search` (src/server.py:69-98): the whole
body is inside `try`, and the `except` clause returns `[]`. -/
def vsSearch (vs : VectorStoreModel) : List SearchHit :=
  if !vs.encoderAvailable then []
  else
    match vs.queryOutcome with
    | .ok hits => hits
    | .error _ => []

/-- `search_chromadb` (src/server.py:149-159): `[]` when the global
store is uninitialized; otherwise delegates (its own `try` never fires
because `vsSearch` is total). -/
def search_chromadb (store : Option VectorStoreModel) : List SearchHit :=
  match store with
  | none => []
  | some vs => vsSearch vs

/-- `content[:500] + "..."` preview (src/server.py:693). -/
def contentPreview (content : String) : String :=
  if content.length > 500 then content.take 500 ++ "..." else content

/-- The RAG supplemental section (src/server.py:689-695): empty when
there are no vector results. -/
def ragSection (rag : List SearchHit) : String :=
  if rag.isEmpty then ""
  else
    "\n\n---\n\n## 📚 RAG 지식베이스 검색 결과\n\n"
    ++ String.join (((rag.take 3).enum).map (fun ir =>
      "### " ++ toString (ir.1 + 1) ++ ". " ++ ir.2.title ++ "\n"
        ++ contentPreview ir.2.content ++ "\n\n"))

/-- `handle_search_knowledge` (src/server.py:648-704): the exact-match
results followed by the supplemental RAG section, or the not-found
message; an exception from the search loops propagates. -/
def handle_search_knowledge (query : String) (category : Option String)
    (store : Option VectorStoreModel) : Except String String :=
  match searchResults query category with
  | .error e => .error e
  | .ok results =>
    let rag_results := search_chromadb store
    if results ≠ [] ∨ rag_results ≠ [] then
      .ok ("## \x27" ++ query ++ "\x27 검색 결과\n\n"
        ++ (if results.isEmpty then "" else String.intercalate "\n\n---\n\n" results)
        ++ ragSection rag_results)
    else
      .ok ("\x27" ++ query
        ++ "\x27에 대한 결과를 찾을 수 없습니다.\n\n사용 가능한 카테고리: paradigms, traditions, coding, quality, journals, rejection\n\n💡 ChromaDB 연결 상태: "
        ++ (if store.isSome then "✅ 연결됨" else "❌ 연결 안됨"))

/-- The per-category behaviour of the exact-match search, stated
declaratively: the characterization of the claim amended to what the source
does. -/
def searchResultsSpec (query : String) (category : Option String) :
    Except String (List String) :=
  let q := pyLowerStr query
  if selCat category "coding"
      ∧ entry_match_full q "thematic_analysis" coding_thematic_analysis then
    .error "KeyError: \x27description\x27"
  else .ok (
    (if selCat category "paradigms" then
      (PARADIGMS.filter (fun kv => entry_match_full q kv.1 kv.2)).map
        (fun kv => renderParadigm kv.2) else [])
    ++ (if selCat category "traditions" then
      (TRADITIONS.filter (fun kv => entry_match_full q kv.1 kv.2)).map
        (fun kv => renderTradition kv.2) else [])
    ++ (if selCat category "coding" then
      (CODING_TYPES.filter (fun kv => entry_match_full q kv.1 kv.2)).map
        (fun kv => renderCodingT kv.2) else [])
    ++ (if selCat category "journals" then
      (JOURNALS.filter (fun kv => entry_match_name q kv.1 kv.2)).map
        (fun kv => renderJournal kv.2) else [])
    ++ (if selCat category "rejection" then
      (REJECTION_PATTERNS.filter (fun kv => entry_match_name q kv.1 kv.2)).map
        (fun kv => renderRejection kv.2) else []))

/-- All knowledge entries tagged with their category, as the claim
quantifies over them ("across the selected category/categories"); the
quality entries come from `QUALITY_CRITERIA`. -/
def knowledge_entries : List (String × String × PyVal) :=
  (PARADIGMS.map (fun kv => ("paradigms", kv.1, kv.2)))
  ++ (TRADITIONS.map (fun kv => ("traditions", kv.1, kv.2)))
  ++ (CODING_TYPES.map (fun kv => ("coding", kv.1, kv.2)))
  ++ (QUALITY_CRITERIA.map (fun kv => ("quality", kv.1, kv.2)))
  ++ (JOURNALS.map (fun kv => ("journals", kv.1, kv.2)))
  ++ (REJECTION_PATTERNS.map (fun kv => ("rejection", kv.1, kv.2)))

/-- The exact-match result set as the claim states it: every entry of
the selected category/categories whose key, case-folded display name,
or case-folded full rendered text contains the (lowered) query. -/
def search_knowledge_spec (query : String) (category : Option String) :
    List (String × String × PyVal) :=
  knowledge_entries.filter (fun e =>
    (catFalsy category || category == some e.1)
    && entry_match_full (pyLowerStr query) e.2.1 e.2.2)

/-! ## Supporting lemmas and claim theorems -/

theorem pyRound_le {num den C : Nat} (hden : 0 < den) (h : num ≤ C * den) :
    pyRound num den ≤ C := by
  unfold pyRound
  have hq : num / den ≤ C := by
    calc num / den ≤ C * den / den := Nat.div_le_div_right h
    _ = C := Nat.mul_div_cancel C hden
  have hd := Nat.div_add_mod num den
  split_ifs with h1 h2 h3
  · exact hq
  · rcases Nat.lt_or_ge (num / den) C with hlt | hge
    · omega
    · have hqe : num / den = C := le_antisymm hq hge
      rw [hqe] at hd
      have hcomm : den * C = C * den := Nat.mul_comm den C
      omega
  · exact hq
  · rcases Nat.lt_or_ge (num / den) C with hlt | hge
    · omega
    · have hqe : num / den = C := le_antisymm hq hge
      rw [hqe] at hd
      have hcomm : den * C = C * den := Nat.mul_comm den C
      omega

theorem lg_matched_eq_amended (d : String) (s : List String) (st : LGStrategy) :
    lg_strategy_matched d s st = lg_strategy_matched_amended d s st := by
  rw [Bool.eq_iff_iff]
  simp only [lg_strategy_matched, lg_strategy_matched_amended, List.any_eq_true,
    Bool.or_eq_true, List.mem_map]
  constructor
  · rintro (⟨k, hk, h | h⟩ | ⟨t, ⟨u, hu, rfl⟩, k, hk, h⟩)
    · exact ⟨k, hk, Or.inl (Or.inl h)⟩
    · exact ⟨k, hk, Or.inr h⟩
    · exact ⟨k, hk, Or.inl (Or.inr ⟨u, hu, h⟩)⟩
  · rintro ⟨k, hk, (h | ⟨u, hu, h⟩) | h⟩
    · exact Or.inl ⟨k, hk, Or.inl h⟩
    · exact Or.inr ⟨normalize_text u, ⟨u, hu, rfl⟩, k, hk, h⟩
    · exact Or.inl ⟨k, hk, Or.inr h⟩

theorem korean_mem_filter_map {l : List LGStrategy} (p : LGStrategy → Bool)
    {st : LGStrategy} (hst : st ∈ l) (hnd : (l.map (·.korean)).Nodup) :
    (st.korean ∈ (l.filter p).map (·.korean)) ↔ p st = true := by
  have hinj := List.inj_on_of_nodup_map hnd
  constructor
  · rintro hmem
    rcases List.mem_map.mp hmem with ⟨b, hbf, hbk⟩
    rcases List.mem_filter.mp hbf with ⟨hbl, hpb⟩
    have : b = st := hinj hbl hst hbk
    rwa [this] at hpb
  · intro hp
    exact List.mem_map.mpr ⟨st, List.mem_filter.mpr ⟨hst, hp⟩, rfl⟩

theorem lg_assessment_bounds (d : String) (s : List String) :
    ∀ a ∈ assess_lincoln_guba d s, a.score ≤ a.max_score := by
  intro a ha
  rw [assess_lincoln_guba, List.mem_map] at ha
  rcases ha with ⟨c, hc, rfl⟩
  have hpos : 0 < c.strategies.length := by fin_cases hc <;> decide
  have h1 : ((c.strategies.filter
      (fun st => lg_strategy_matched d s st)).map (·.korean)).length
        ≤ c.strategies.length := by
    rw [List.length_map]; exact List.length_filter_le _ _
  exact pyRound_le hpos (Nat.mul_le_mul_left 25 h1)

theorem tracy_assessment_bounds (d : String) (s : List String) :
    ∀ a ∈ assess_tracy d s, a.score ≤ a.max_score := by
  intro a ha
  rw [assess_tracy, List.mem_map] at ha
  rcases ha with ⟨c, hc, rfl⟩
  have hpos : 0 < c.indicators.length := by fin_cases hc <;> decide
  have h1 : (c.indicators.filter
      (fun i => tracy_indicator_matched d s i)).length ≤ c.indicators.length :=
    List.length_filter_le _ _
  exact pyRound_le hpos (Nat.mul_le_mul_left 13 h1)

theorem overall_percentage_spec (A : List Assessment)
    (hb : ∀ a ∈ A, a.score ≤ a.max_score) :
    (if 0 < (A.map (·.max_score)).sum then
        (((A.map (·.score)).sum : Nat) : ℚ) / (((A.map (·.max_score)).sum : Nat) : ℚ) * 100
      else 0)
      = (((A.map (·.score)).sum : Nat) : ℚ) / (((A.map (·.max_score)).sum : Nat) : ℚ) * 100
    ∧ 0 ≤ (if 0 < (A.map (·.max_score)).sum then
        (((A.map (·.score)).sum : Nat) : ℚ) / (((A.map (·.max_score)).sum : Nat) : ℚ) * 100
      else 0)
    ∧ (if 0 < (A.map (·.max_score)).sum then
        (((A.map (·.score)).sum : Nat) : ℚ) / (((A.map (·.max_score)).sum : Nat) : ℚ) * 100
      else 0) ≤ 100 := by
  by_cases hm : 0 < (A.map (·.max_score)).sum
  · rw [if_pos hm]
    have h2 : (((A.map (·.score)).sum : Nat) : ℚ) ≤ (((A.map (·.max_score)).sum : Nat) : ℚ) := by
      exact_mod_cast List.sum_le_sum hb
    have h3 : (0:ℚ) < (((A.map (·.max_score)).sum : Nat) : ℚ) := by exact_mod_cast hm
    refine ⟨rfl, by positivity, ?_⟩
    calc (((A.map (·.score)).sum : Nat) : ℚ) / (((A.map (·.max_score)).sum : Nat) : ℚ) * 100
        ≤ (1:ℚ) * 100 := mul_le_mul_of_nonneg_right ((div_le_one h3).mpr h2) (by norm_num)
    _ = 100 := by norm_num
  · rw [if_neg hm]
    have h0 : (A.map (·.max_score)).sum = 0 := Nat.eq_zero_of_not_pos hm
    rw [h0]
    norm_num

/-- Claim C1: for every description and strategy list, each of the
eight Tracy criteria receives `score = round(k / n * 13)` (Python
round, i.e. round half to even on the exact ratio) where `k` is the
number of matched indicators and `n` the indicator count of the criterion;
every `max_score` is 13 and the eight max scores sum to 104. -/
theorem tracy_score_formula (d : String) (s : List String) :
    List.Forall₂ (fun (a : Assessment) (c : TracyCriterion) =>
        a.max_score = 13 ∧
        a.score = pyRound (13 * (c.indicators.filter
          (fun i => tracy_indicator_matched d s i)).length) c.indicators.length)
      (assess_tracy d s) tracy_criteria
    ∧ ((assess_tracy d s).map (·.max_score)).sum = 104
    ∧ tracy_criteria.length = 8 := by
  refine ⟨?_, ?_, rfl⟩
  · rw [assess_tracy, List.forall₂_map_left_iff, List.forall₂_same]
    intro c _
    exact ⟨rfl, rfl⟩
  · rfl

/-- Claim C2: for every description and strategy list, each of the four
Lincoln & Guba criteria receives `score = round(k / n * 25)` where `k`
is the number of matched strategies and `n` the strategy count
of the criterion; every `max_score` is 25 and the four max scores sum to 100.
Boundary checks: an input matching nothing scores `[0, 0, 0, 0]`, an
input matching every strategy scores `[25, 25, 25, 25]`, and
`round(0 / n * 25) = 0`, `round(n / n * 25) = 25` for both strategy
counts (5 and 3) occurring in the table. -/
theorem lincoln_guba_score_formula (d : String) (s : List String) :
    List.Forall₂ (fun (a : Assessment) (c : LGCriterion) =>
        a.max_score = 25 ∧
        a.score = pyRound (25 * (c.strategies.filter
          (fun st => lg_strategy_matched d s st)).length) c.strategies.length)
      (assess_lincoln_guba d s) lg_criteria
    ∧ ((assess_lincoln_guba d s).map (·.max_score)).sum = 100
    ∧ lg_criteria.length = 4
    ∧ pyRound (25 * 0) 5 = 0 ∧ pyRound (25 * 5) 5 = 25
    ∧ pyRound (25 * 0) 3 = 0 ∧ pyRound (25 * 3) 3 = 25
    ∧ (assess_lincoln_guba "" []).map (·.score) = [0, 0, 0, 0]
    ∧ (assess_lincoln_guba "장기 삼각화 동료검토 참여자확인 부정적사례 두꺼운기술 목적적 맥락 감사추적 재코드 동료검증 반성" []).map (·.score)
        = [25, 25, 25, 25] := by
  refine ⟨?_, rfl, rfl, by decide, by decide, by decide, by decide, by decide, by decide⟩
  rw [assess_lincoln_guba, List.forall₂_map_left_iff, List.forall₂_same]
  intro c _
  exact ⟨rfl, by simp only [List.length_map]⟩

/-- Claim C3 (counterexample): with an empty description and the single
supplied strategy string 삼각, the triangulation strategy of the
credibility criterion (and of the confirmability criterion) is reported
as applied by `assess_lincoln_guba`, although the matching condition as
the claim states it is false for that strategy: no keyword occurs in
the (empty) description, and no keyword occurs as a substring of the
supplied string — the match fires only through the reverse containment
`s in normalize_text(k)` of src/server.py:956, which the phrase
"under no other condition" of the claim excludes. -/
theorem lg_matched_claim_counterexample :
    ((assess_lincoln_guba "" ["삼각"]).map (·.strategies_applied)
        = [["삼각화/삼각검증"], [], [], ["삼각화/삼각검증"]])
    ∧ lg_strategy_matched_spec "" ["삼각"]
        { name := "triangulation", korean := "삼각화/삼각검증",
          keywords := ["삼각화", "삼각검증", "triangulation", "다중자료", "3중", "인터뷰+저널", "다중출처"] }
        = false
    ∧ lg_strategy_matched "" ["삼각"]
        { name := "triangulation", korean := "삼각화/삼각검증",
          keywords := ["삼각화", "삼각검증", "triangulation", "다중자료", "3중", "인터뷰+저널", "다중출처"] }
        = true := by
  refine ⟨by decide, by decide, by decide⟩

/-- Claim C3 (amended): in `assess_lincoln_guba` a strategy is reported
as applied if and only if some keyword, normalized, occurs in the
normalized description, or the case-folded keyword occurs in the
case-folded raw description, or, for some supplied strategy string, the
normalized keyword occurs in the normalized strategy string **or the
normalized strategy string occurs in the normalized keyword** — the
last disjunct being the amendment the source forces. -/
theorem lg_matched_amended_iff (d : String) (s : List String) :
    List.Forall₂ (fun (a : Assessment) (c : LGCriterion) =>
        ∀ st ∈ c.strategies,
          (st.korean ∈ a.strategies_applied ↔ lg_strategy_matched_amended d s st = true))
      (assess_lincoln_guba d s) lg_criteria := by
  rw [assess_lincoln_guba, List.forall₂_map_left_iff, List.forall₂_same]
  intro c hc st hst
  have hnd : (c.strategies.map (·.korean)).Nodup := by
    fin_cases hc <;> decide
  rw [korean_mem_filter_map _ hst hnd, lg_matched_eq_amended]

/-- Claim C5: for every input with a non-empty description, every
per-criterion score lies in `[0, max_score]` (scores are naturals, so
the lower bound is inherent), and the overall percentage equals
`sum(scores) / sum(max_scores) * 100` and lies in `[0, 100]`. -/
theorem quality_score_invariants (d : String) (s : List String) (c : String)
    (hd : d ≠ "") :
    ∃ r, handle_assess_quality d s c = AssessOutput.report r
      ∧ (∀ a ∈ r.detailed_assessment, a.score ≤ a.max_score)
      ∧ r.overall_percentage = (r.total_score : ℚ) / (r.max_score_total : ℚ) * 100
      ∧ 0 ≤ r.overall_percentage ∧ r.overall_percentage ≤ 100 := by
  have hb : ∀ a ∈ ((if c = "lincoln_guba" ∨ c = "all" then assess_lincoln_guba d s else [])
      ++ (if c = "tracy" ∨ c = "all" then assess_tracy d s else [])),
      a.score ≤ a.max_score := by
    intro a ha
    rcases List.mem_append.mp ha with h | h
    · by_cases h1 : (c = "lincoln_guba" ∨ c = "all")
      · rw [if_pos h1] at h; exact lg_assessment_bounds d s a h
      · rw [if_neg h1] at h; cases h
    · by_cases h1 : (c = "tracy" ∨ c = "all")
      · rw [if_pos h1] at h; exact tracy_assessment_bounds d s a h
      · rw [if_neg h1] at h; cases h
  rw [handle_assess_quality, if_neg hd]
  exact ⟨_, rfl, hb, (overall_percentage_spec _ hb).1,
    (overall_percentage_spec _ hb).2.1, (overall_percentage_spec _ hb).2.2⟩

/-- Witness for C5 at a concrete input. -/
theorem quality_score_invariants_witness :
    ∃ r, handle_assess_quality "삼각검증과 동료검토를 실시했다" ["감사추적"] "all"
        = AssessOutput.report r
      ∧ (∀ a ∈ r.detailed_assessment, a.score ≤ a.max_score)
      ∧ r.overall_percentage = (r.total_score : ℚ) / (r.max_score_total : ℚ) * 100
      ∧ 0 ≤ r.overall_percentage ∧ r.overall_percentage ≤ 100 :=
  quality_score_invariants "삼각검증과 동료검토를 실시했다" ["감사추적"] "all" (by decide)

/-- Claim C6: the grade bands of `get_grade` are exactly
`≥90 → A`, `[80, 90) → B`, `[70, 80) → C`, `[60, 70) → D`, `<60 → F`,
and in particular 90.0 maps to A, 89.9 and 80.0 to B, 70.0 to C and
59.9 to F. -/
theorem grade_bands (p : ℚ) :
    (get_grade p = "A (우수)" ↔ 90 ≤ p)
    ∧ (get_grade p = "B (양호)" ↔ 80 ≤ p ∧ p < 90)
    ∧ (get_grade p = "C (보통)" ↔ 70 ≤ p ∧ p < 80)
    ∧ (get_grade p = "D (미흡)" ↔ 60 ≤ p ∧ p < 70)
    ∧ (get_grade p = "F (개선 필요)" ↔ p < 60)
    ∧ get_grade 90 = "A (우수)" ∧ get_grade (899 / 10) = "B (양호)"
    ∧ get_grade 80 = "B (양호)" ∧ get_grade 70 = "C (보통)"
    ∧ get_grade (599 / 10) = "F (개선 필요)" := by
  refine ⟨?_, ?_, ?_, ?_, ?_, by norm_num [get_grade], by norm_num [get_grade],
    by norm_num [get_grade], by norm_num [get_grade], by norm_num [get_grade]⟩ <;>
    (unfold get_grade
     split_ifs with h1 h2 h3 h4 <;> simp <;>
      first
        | linarith
        | exact ⟨by linarith, by linarith⟩
        | (intro hh; linarith))

/-- Claim C7: `handle_assess_quality` is deterministic — equal
description, strategy list and criteria arguments give equal output;
the embedding takes no other inputs, matching the absence of hidden
state in the source. -/
theorem assess_quality_deterministic (d₁ d₂ : String) (s₁ s₂ : List String)
    (c₁ c₂ : String) (hd : d₁ = d₂) (hs : s₁ = s₂) (hc : c₁ = c₂) :
    handle_assess_quality d₁ s₁ c₁ = handle_assess_quality d₂ s₂ c₂ := by
  subst hd; subst hs; subst hc; rfl

/-- Witness for C7 at a concrete input. -/
theorem assess_quality_deterministic_witness :
    handle_assess_quality "삼각검증" ["동료검토"] "all"
      = handle_assess_quality "삼각검증" ["동료검토"] "all" :=
  assess_quality_deterministic "삼각검증" "삼각검증" ["동료검토"] ["동료검토"]
    "all" "all" rfl rfl rfl

/-- Claim C10: for a non-empty description and a criteria string other
than the three recognized values, no criteria are assessed, the summed
max score is 0, the guard yields overall percentage 0 and grade F, and
the detailed assessment is empty — no division-by-zero error occurs. -/
theorem invalid_criteria_safe (d : String) (s : List String) (c : String)
    (hd : d ≠ "") (h1 : c ≠ "lincoln_guba") (h2 : c ≠ "tracy") (h3 : c ≠ "all") :
    handle_assess_quality d s c = AssessOutput.report
      { criteria_used := c, description_length := d.length,
        strategies_reported := s.length, total_score := 0, max_score_total := 0,
        overall_percentage := 0, grade := "F (개선 필요)",
        detailed_assessment := [], strengths := [], weaknesses := [],
        priority_actions := [], enhancement_guide := quality_enhancement_guide } := by
  rw [handle_assess_quality, if_neg hd]
  have e1 : (c = "lincoln_guba" ∨ c = "all") = False := by
    simp [h1, h3]
  have e2 : (c = "tracy" ∨ c = "all") = False := by
    simp [h2, h3]
  simp only [e1, e2, if_false, List.append_nil, List.map_nil, List.sum_nil,
    lt_self_iff_false, if_neg, List.filter_nil, get_priority_actions,
    List.take_nil, Nat.cast_zero]
  rfl

/-- Witness for C10 at a concrete input. -/
theorem invalid_criteria_safe_witness :
    handle_assess_quality "연구 설명" [] "bogus" = AssessOutput.report
      { criteria_used := "bogus", description_length := "연구 설명".length,
        strategies_reported := ([] : List String).length, total_score := 0,
        max_score_total := 0, overall_percentage := 0, grade := "F (개선 필요)",
        detailed_assessment := [], strengths := [], weaknesses := [],
        priority_actions := [], enhancement_guide := quality_enhancement_guide } :=
  invalid_criteria_safe "연구 설명" [] "bogus" (by decide) (by decide) (by decide)
    (by decide)

theorem loopTable_eq (m : String → PyVal → Bool) (render : PyVal → String)
    (tbl : List (String × PyVal)) (acc : List String) :
    loopTable m render tbl acc
      = acc ++ (tbl.filter (fun kv => m kv.1 kv.2)).map (fun kv => render kv.2) := by
  induction tbl generalizing acc with
  | nil => simp [loopTable]
  | cons kv rest ih =>
    by_cases h : m kv.1 kv.2 <;>
      simp [loopTable, h, ih, List.filter_cons]

theorem loopTableE_renders_ok (m : String → PyVal → Bool)
    (renderE : PyVal → Except String String) (renderT : PyVal → String)
    (tbl : List (String × PyVal)) (acc : List String)
    (h : ∀ kv ∈ tbl, renderE kv.2 = .ok (renderT kv.2)) :
    loopTableE m renderE tbl acc = .ok (loopTable m renderT tbl acc) := by
  induction tbl generalizing acc with
  | nil => simp [loopTableE, loopTable]
  | cons kv rest ih =>
    have hkv := h kv (List.mem_cons_self kv rest)
    have hrest : ∀ kv ∈ rest, renderE kv.2 = .ok (renderT kv.2) :=
      fun x hx => h x (List.mem_cons_of_mem kv hx)
    by_cases hm : m kv.1 kv.2 <;>
      simp [loopTableE, loopTable, hm, hkv, ih _ hrest]

theorem loopTableE_append (m : String → PyVal → Bool)
    (renderE : PyVal → Except String String)
    (l₁ l₂ : List (String × PyVal)) (acc : List String) :
    loopTableE m renderE (l₁ ++ l₂) acc
      = match loopTableE m renderE l₁ acc with
        | .error e => .error e
        | .ok a => loopTableE m renderE l₂ a := by
  induction l₁ generalizing acc with
  | nil => simp [loopTableE]
  | cons kv rest ih =>
    by_cases hm : m kv.1 kv.2
    · simp only [List.cons_append, loopTableE, hm, if_true]
      cases renderE kv.2 with
      | error e => rfl
      | ok r => exact ih _
    · simp only [List.cons_append, loopTableE, hm, if_false]
      exact ih _

theorem coding_loop_characterization (q : String) (acc : List String) :
    loopTableE (entry_match_full q) renderCoding CODING_TYPES acc
      = if entry_match_full q "thematic_analysis" coding_thematic_analysis then
          Except.error "KeyError: \x27description\x27"
        else .ok (loopTable (entry_match_full q) renderCodingT CODING_TYPES acc) := by
  have hsplit : CODING_TYPES
      = [("open_coding", coding_open_coding), ("axial_coding", coding_axial_coding),
         ("selective_coding", coding_selective_coding), ("invivo_coding", coding_invivo_coding)]
        ++ [("thematic_analysis", coding_thematic_analysis)] := rfl
  rw [hsplit, loopTableE_append]
  rw [loopTableE_renders_ok (entry_match_full q) renderCoding renderCodingT _ acc ?hok]
  case hok =>
    intro kv hkv
    simp only [List.mem_cons, List.not_mem_nil, or_false] at hkv
    rcases hkv with rfl | rfl | rfl | rfl <;> rfl
  by_cases hm : entry_match_full q "thematic_analysis" coding_thematic_analysis
  · have hr : renderCoding coding_thematic_analysis
        = Except.error "KeyError: \x27description\x27" := rfl
    simp only [loopTableE, hm, if_true, hr, if_pos hm]
  · simp only [loopTableE, hm, if_false, if_neg hm, loopTable_eq, List.filter_append,
      List.filter_cons, List.filter_nil, List.map_append, List.append_assoc]
    simp [hm]

theorem ite_acc_append {b : Prop} [Decidable b] (acc xs : List String) :
    (if b then acc ++ xs else acc) = acc ++ (if b then xs else []) := by
  split <;> simp

/-- Claim C4 (amended): for every query and category filter, the
exact-match section is exactly: the paradigms, traditions and coding
entries of the selected categories whose key, case-folded name, or
case-folded full `str()` text contains the lowered query, followed by
the journals and rejection entries matching on key or case-folded name
only, each rendered in table insertion order (paradigms, traditions,
coding, journals, rejection); quality entries are never searched; and
when the coding category is selected and the query matches the
thematic_analysis entry, the handler instead raises `KeyError` on the
missing description field. -/
theorem search_results_characterization (query : String) (category : Option String) :
    searchResults query category = searchResultsSpec query category := by
  by_cases hc : selCat category "coding"
  · by_cases hm : entry_match_full (pyLowerStr query) "thematic_analysis"
        coding_thematic_analysis
    · simp [searchResults, searchResultsSpec, hc, hm, coding_loop_characterization]
    · by_cases hp : selCat category "paradigms" <;>
      by_cases ht : selCat category "traditions" <;>
      by_cases hj : selCat category "journals" <;>
      by_cases hr : selCat category "rejection" <;>
      simp [searchResults, searchResultsSpec, hc, hm, hp, ht, hj, hr,
        coding_loop_characterization, loopTable_eq, List.append_assoc]
  · by_cases hp : selCat category "paradigms" <;>
    by_cases ht : selCat category "traditions" <;>
    by_cases hj : selCat category "journals" <;>
    by_cases hr : selCat category "rejection" <;>
    simp [searchResults, searchResultsSpec, hc, hp, ht, hj, hr,
      loopTable_eq, List.append_assoc]

/-- Claim C4 (counterexample): for the query credibility with the
category filter quality, the handler returns no exact-match results at
all — `handle_search_knowledge` has no loop over `QUALITY_CRITERIA` —
although the trustworthiness entry of the quality category matches the
query in its full rendered text, so the claimed result set is
non-empty. -/
theorem search_knowledge_claim_counterexample :
    searchResults "credibility" (some "quality") = .ok []
    ∧ (search_knowledge_spec "credibility" (some "quality")).map (fun e => e.2.1)
        = ["trustworthiness"] := by
  exact ⟨rfl, by decide⟩

theorem lookup_none_of_not_mem {k : String} {tbl : List (String × PyVal)}
    (h : k ∉ tbl.map (·.1)) : dictLookup k tbl = none := by
  unfold dictLookup
  rw [Option.map_eq_none', List.find?_eq_none]
  intro kv hkv hbeq
  exact h (List.mem_map.mpr ⟨kv, hkv, by simpa using hbeq⟩)

/-- Claim C8: for every key argument outside the fixed enumeration of
its category, each lookup handler (`handle_get_paradigm`,
`handle_get_tradition`, `handle_get_coding_guide`,
`handle_get_journal_guide`, `handle_diagnose_rejection`) returns a
descriptive text message enumerating exactly the valid keys of that
category, and, being a total function into strings, raises no
exception. -/
theorem unknown_key_lookup (k : String) :
    (k ∉ ["positivism", "postpositivism", "critical_theory", "constructivism"] →
      handle_get_paradigm k = "알 수 없는 패러다임: " ++ k ++ "\n사용 가능: "
        ++ "positivism, postpositivism, critical_theory, constructivism")
    ∧ (k ∉ ["phenomenology", "grounded_theory", "ethnography", "narrative", "case_study"] →
      handle_get_tradition k = "알 수 없는 전통: " ++ k ++ "\n사용 가능: "
        ++ "phenomenology, grounded_theory, ethnography, narrative, case_study")
    ∧ (k ∉ ["open_coding", "axial_coding", "selective_coding", "invivo_coding", "thematic_analysis"] →
      handle_get_coding_guide k = .ok ("알 수 없는 코딩 유형: " ++ k ++ "\n사용 가능: "
        ++ "open_coding, axial_coding, selective_coding, invivo_coding, thematic_analysis"))
    ∧ (k ∉ ["amr", "asq"] →
      handle_get_journal_guide k = "알 수 없는 저널: " ++ k ++ "\n사용 가능: " ++ "amr, asq")
    ∧ (k ∉ ["so_what", "old_wine", "logic_gap"] →
      handle_diagnose_rejection k = "알 수 없는 리젝션 유형: " ++ k ++ "\n사용 가능: "
        ++ "so_what, old_wine, logic_gap") := by
  have eP : PARADIGMS.map (fun kv => kv.1)
      = ["positivism", "postpositivism", "critical_theory", "constructivism"] := rfl
  have eT : TRADITIONS.map (fun kv => kv.1)
      = ["phenomenology", "grounded_theory", "ethnography", "narrative", "case_study"] := rfl
  have eC : CODING_TYPES.map (fun kv => kv.1)
      = ["open_coding", "axial_coding", "selective_coding", "invivo_coding", "thematic_analysis"] := rfl
  have eJ : JOURNALS.map (fun kv => kv.1) = ["amr", "asq"] := rfl
  have eR : REJECTION_PATTERNS.map (fun kv => kv.1)
      = ["so_what", "old_wine", "logic_gap"] := rfl
  refine ⟨fun h => ?_, fun h => ?_, fun h => ?_, fun h => ?_, fun h => ?_⟩
  · rw [handle_get_paradigm, lookup_none_of_not_mem (by rw [eP]; exact h)]; rfl
  · rw [handle_get_tradition, lookup_none_of_not_mem (by rw [eT]; exact h)]; rfl
  · rw [handle_get_coding_guide, lookup_none_of_not_mem (by rw [eC]; exact h)]; rfl
  · rw [handle_get_journal_guide, lookup_none_of_not_mem (by rw [eJ]; exact h)]; rfl
  · rw [handle_diagnose_rejection, lookup_none_of_not_mem (by rw [eR]; exact h)]; rfl

set_option maxRecDepth 65536 in
/-- Claim C9: any exception inside the vector-search path is caught
and converted to an empty result list (`vsSearch` on an erroring
pipeline yields `[]`, an uninitialized store yields `[]`), and with the
store uninitialized `handle_search_knowledge` returns its exact-match
results with an empty supplemental section — except on the failing
input: the query thematic makes the exact-match section itself raise
`KeyError` on the missing description field of the thematic_analysis
entry, so the handler raises regardless of the vector store, which
contradicts the claim (the code slip is the missing field). -/
theorem vector_search_error_handling :
    (∀ (enc : Bool) (e : String),
      vsSearch { encoderAvailable := enc, queryOutcome := Except.error e } = [])
    ∧ search_chromadb none = []
    ∧ (∀ (query : String) (category : Option String) (res : List String),
        searchResults query category = .ok res → res ≠ [] →
        handle_search_knowledge query category none
          = .ok ("## \x27" ++ query ++ "\x27 검색 결과\n\n"
              ++ String.intercalate "\n\n---\n\n" res))
    ∧ handle_search_knowledge "thematic" none none
        = .error "KeyError: \x27description\x27" := by
  refine ⟨?_, rfl, ?_, rfl⟩
  · intro enc e; cases enc <;> rfl
  · intro q c res hres hne
    rw [handle_search_knowledge, hres]
    simp [search_chromadb, ragSection, hne, List.isEmpty_eq_true]

set_option maxRecDepth 65536 in
/-- Witness for C9 at a concrete input. -/
theorem vector_search_error_handling_witness :
    handle_search_knowledge "현상학" none none
      = .ok ("## \x27현상학\x27 검색 결과\n\n"
          ++ String.intercalate "\n\n---\n\n"
            ["**구성주의 (Constructivism)**\n- 존재론: 다중 실재, 사회적으로 구성됨\n- 인식론: 연구자-참여자 공동 구성, 해석학적 이해",
             "**현상학 (Phenomenology)**\n- 초점: 체험의 본질 (essence of lived experience)\n- 분석: 현상학적 환원, 본질 직관, 의미 단위 분석"]) :=
  vector_search_error_handling.2.2.1 "현상학" none _ rfl (by decide)

/-- Witness for C8 at the concrete unknown key marxism. -/
theorem unknown_key_lookup_witness :
    handle_get_paradigm "marxism" = "알 수 없는 패러다임: " ++ "marxism" ++ "\n사용 가능: "
      ++ "positivism, postpositivism, critical_theory, constructivism"
    ∧ handle_get_tradition "marxism" = "알 수 없는 전통: " ++ "marxism" ++ "\n사용 가능: "
      ++ "phenomenology, grounded_theory, ethnography, narrative, case_study"
    ∧ handle_get_coding_guide "marxism" = .ok ("알 수 없는 코딩 유형: " ++ "marxism"
      ++ "\n사용 가능: " ++ "open_coding, axial_coding, selective_coding, invivo_coding, thematic_analysis")
    ∧ handle_get_journal_guide "marxism" = "알 수 없는 저널: " ++ "marxism" ++ "\n사용 가능: "
      ++ "amr, asq"
    ∧ handle_diagnose_rejection "marxism" = "알 수 없는 리젝션 유형: " ++ "marxism"
      ++ "\n사용 가능: " ++ "so_what, old_wine, logic_gap" :=
  ⟨(unknown_key_lookup "marxism").1 (by decide),
   (unknown_key_lookup "marxism").2.1 (by decide),
   (unknown_key_lookup "marxism").2.2.1 (by decide),
   (unknown_key_lookup "marxism").2.2.2.1 (by decide),
   (unknown_key_lookup "marxism").2.2.2.2 (by decide)⟩

